import Mathlib

/-!
Shallow embedding of the two Arduino game sketches in this repository
(a paddle-ball game and an obstacle-runner game, both in
src/pong_game/pong_game.ino).  C floats are modelled as exact rationals,
C ints as integers.  The two digital inputs are modelled as a pair of
booleans sampled once per tick (true = switch closed, i.e. the C
expression !digitalRead(pin)).  The pseudo-random source is modelled as
an oracle value passed into each tick, together with a validity
predicate recording the range contract of the random() call sites.
Drawing calls own no game state and are omitted.
-/

/-- The three-state session machine shared by both sketches. -/
inductive GameState
  | START_SCREEN
  | PLAYING
  | GAME_OVER
deriving DecidableEq, Repr

/-- One tick worth of sampled digital inputs (true means activated). -/
structure Input where
  left : Bool
  right : Bool
deriving DecidableEq, Repr

/-- The condition !digitalRead(LEFT) or !digitalRead(RIGHT) used by both sketches. -/
def Input.pressed (i : Input) : Bool := i.left || i.right

namespace Pong

/-- Global mutable state of the paddle-ball sketch (lines 30, 50-55). -/
structure State where
  gameState : GameState
  player_x : ℚ
  ai_x : ℚ
  ball_x : ℚ
  ball_y : ℚ
  ball_vx : ℚ
  ball_vy : ℚ
  playerScore : ℤ
  aiScore : ℤ
deriving DecidableEq, Repr

/-- Oracle for the random() draws a tick can consume:
speed is the value of random(2, 4), sgn and dir the two random(2) == 0 draws
(serve sign, reset serve direction). -/
structure Rand where
  speed : ℚ
  sgn : Bool
  dir : Bool
deriving DecidableEq, Repr

/-- Contract of random(2, 4): an integer in [2, 4). -/
def Rand.Valid (r : Rand) : Prop := r.speed = 2 ∨ r.speed = 3

instance (r : Rand) : Decidable r.Valid := by
  unfold Rand.Valid; infer_instance

/-- serveBall (lines 136-141): ball to screen center, vx = random(2,4) times
a random sign, vy = 3 * direction. -/
def serveBall (r : Rand) (direction : ℤ) (s : State) : State :=
  { s with
    ball_x := 160      -- SCREEN_WIDTH / 2
    ball_y := 85       -- SCREEN_HEIGHT / 2
    ball_vx := r.speed * (if r.sgn then 1 else -1)
    ball_vy := 3 * (direction : ℚ) }

/-- resetGame (lines 128-134): scores to 0, paddles centered, serve to a
random side.  (SCREEN_WIDTH - PADDLE_WIDTH) / 2 = 120. -/
def resetGame (r : Rand) (s : State) : State :=
  serveBall r (if r.dir then 1 else -1)
    { s with playerScore := 0, aiScore := 0, player_x := 120, ai_x := 120 }

/-- Player paddle movement plus clamp (lines 148-157).  Each active input adds
a signed PADDLE_SPEED = 6 step; then the position is clamped to
[0, SCREEN_WIDTH - PADDLE_WIDTH] = [0, 240]. -/
def newPlayerX (inp : Input) (s : State) : ℚ :=
  let x1 := if inp.left then s.player_x - 6 else s.player_x
  let x2 := if inp.right then x1 + 6 else x1
  let x3 := if x2 < 0 then 0 else x2
  if x3 > 240 then 240 else x3

/-- AI paddle movement plus clamp (lines 160-167).  The AI tracks
ball_x - PADDLE_WIDTH / 2 at speed 6 * 0.7 = 21/5; the two comparisons are
sequential as in the source, then the position is clamped to [0, 240]. -/
def newAIX (s : State) : ℚ :=
  let target := s.ball_x - 40
  let a1 := if s.ai_x < target then s.ai_x + 21/5 else s.ai_x
  let a2 := if a1 > target then a1 - 21/5 else a1
  let a3 := if a2 < 0 then 0 else a2
  if a3 > 240 then 240 else a3

/-- Ball x after integration (line 171). -/
def newBallX (s : State) : ℚ := s.ball_x + s.ball_vx

/-- Ball y after integration (line 172). -/
def newBallY (s : State) : ℚ := s.ball_y + s.ball_vy

/-- Left/right wall test (line 175): ball x outside [0, SCREEN_WIDTH - BALL_SIZE]
= [0, 310] after the move. -/
def wallCross (s : State) : Prop := newBallX s < 0 ∨ newBallX s > 310

instance (s : State) : Decidable (wallCross s) := by
  unfold wallCross; infer_instance

/-- Horizontal velocity after the wall check (lines 175-177). -/
def vxAfterWall (s : State) : ℚ :=
  if wallCross s then -s.ball_vx else s.ball_vx

/-- Player-paddle collision guard (line 181): ball moving down, bottom edge at
or below PADDLE_Y_POS = 158, and horizontal overlap with the player paddle. -/
def playerHit (inp : Input) (s : State) : Prop :=
  s.ball_vy > 0 ∧ newBallY s + 10 ≥ 158 ∧
    newBallX s + 10 > newPlayerX inp s ∧ newBallX s < newPlayerX inp s + 80

instance (inp : Input) (s : State) : Decidable (playerHit inp s) := by
  unfold playerHit; infer_instance

/-- Vertical velocity after the player-paddle block (line 182). -/
def vyAfterPlayer (inp : Input) (s : State) : ℚ :=
  if playerHit inp s then -s.ball_vy else s.ball_vy

/-- Horizontal velocity after the player-paddle block (line 184): the spin term
(ball_x - (player_x + PADDLE_WIDTH / 2)) / 10 is added on contact. -/
def vxAfterPlayer (inp : Input) (s : State) : ℚ :=
  if playerHit inp s then vxAfterWall s + (newBallX s - (newPlayerX inp s + 40)) / 10
  else vxAfterWall s

/-- AI-paddle collision guard (line 187), evaluated on the vertical velocity as
already updated by the player-paddle block: ball moving up, top edge at or
above AI_PADDLE_Y_POS + PADDLE_HEIGHT = 12, horizontal overlap with the AI
paddle. -/
def aiHit (inp : Input) (s : State) : Prop :=
  vyAfterPlayer inp s < 0 ∧ newBallY s ≤ 12 ∧
    newBallX s + 10 > newAIX s ∧ newBallX s < newAIX s + 80

instance (inp : Input) (s : State) : Decidable (aiHit inp s) := by
  unfold aiHit; infer_instance

/-- Vertical velocity after the AI-paddle block (line 188). -/
def vyAfterAI (inp : Input) (s : State) : ℚ :=
  if aiHit inp s then -(vyAfterPlayer inp s) else vyAfterPlayer inp s

/-- Movement, ball integration, wall bounce and paddle bounces of
updateGameLogic (lines 146-189), before the scoring block. -/
def physicsStep (inp : Input) (s : State) : State :=
  { s with
    player_x := newPlayerX inp s
    ai_x := newAIX s
    ball_x := newBallX s
    ball_y := newBallY s
    ball_vx := vxAfterPlayer inp s
    ball_vy := vyAfterAI inp s }

/-- Scoring block of updateGameLogic (lines 191-199): ball past the bottom
edge scores for the AI and re-serves toward the AI; then, on the possibly
re-served ball, past the top edge scores for the player and re-serves toward
the player, exactly as the two sequential ifs of the source. -/
def scoringStep (r : Rand) (t : State) : State :=
  let s2 := if t.ball_y > 170 then serveBall r (-1) { t with aiScore := t.aiScore + 1 } else t
  if s2.ball_y < 0 then serveBall r 1 { s2 with playerScore := s2.playerScore + 1 } else s2

/-- updateGameLogic (lines 146-200): physics then scoring. -/
def updateGameLogic (r : Rand) (inp : Input) (s : State) : State :=
  scoringStep r (physicsStep inp s)

/-- One iteration of loop() (lines 91-123), drawing omitted.  In PLAYING the
win condition playerScore >= 5 or aiScore >= 5 is checked after the engine
update. -/
def tick (r : Rand) (inp : Input) (s : State) : State :=
  match s.gameState with
  | .START_SCREEN =>
      if inp.pressed then { resetGame r s with gameState := .PLAYING } else s
  | .PLAYING =>
      let s1 := updateGameLogic r inp s
      if s1.playerScore ≥ 5 ∨ s1.aiScore ≥ 5 then { s1 with gameState := .GAME_OVER } else s1
  | .GAME_OVER =>
      if inp.pressed then { resetGame r s with gameState := .START_SCREEN } else s

end Pong

namespace Flappy

/-- One obstacle descriptor (lines 318-322): left edge x, gap center gap_y,
and the per-pass scored flag. -/
structure Pipe where
  x : ℤ
  gap_y : ℤ
  scored : Bool
deriving DecidableEq, Repr

/-- Global mutable state of the obstacle-runner sketch (lines 301, 323-329).
The fixed two-slot pipe ring is the pair pipe0, pipe1. -/
structure State where
  gameState : GameState
  bird_y : ℚ
  bird_y_velocity : ℚ
  score : ℤ
  highScore : ℤ
  button_was_pressed : Bool
  pipe0 : Pipe
  pipe1 : Pipe
deriving DecidableEq, Repr

/-- Oracle for the random() draws a tick can consume: one gap draw per pipe
slot (used on recycle or in setupGame). -/
structure Rand where
  g0 : ℤ
  g1 : ℤ
deriving DecidableEq, Repr

/-- Contract of random(PIPE_GAP_HEIGHT / 2 + 20, SCREEN_HEIGHT -
PIPE_GAP_HEIGHT / 2 - GROUND_HEIGHT - 20) = random(60, 100): an integer in
[60, 100). -/
def Rand.Valid (r : Rand) : Prop :=
  (60 ≤ r.g0 ∧ r.g0 < 100) ∧ (60 ≤ r.g1 ∧ r.g1 < 100)

instance (r : Rand) : Decidable r.Valid := by
  unfold Rand.Valid; infer_instance

/-- setupGame (lines 400-414): bird recentered, velocity zeroed, score zeroed,
pipes to SCREEN_WIDTH + i * PIPE_SPACING with fresh gaps and cleared scored
flags.  highScore and button_was_pressed are not touched. -/
def setupGame (r : Rand) (s : State) : State :=
  { s with
    bird_y := 85            -- SCREEN_HEIGHT / 2
    bird_y_velocity := 0
    score := 0
    pipe0 := { x := 320, gap_y := r.g0, scored := false }
    pipe1 := { x := 500, gap_y := r.g1, scored := false } }

/-- Pipe movement and recycling for one slot (lines 433-440): shift left by
PIPE_SPEED = 2; if x drops below -PIPE_WIDTH = -40, reposition to
SCREEN_WIDTH = 320 with a fresh gap and scored = false. -/
def movePipe (g : ℤ) (p : Pipe) : Pipe :=
  let x1 := p.x - 2
  if x1 < -40 then { x := 320, gap_y := g, scored := false }
  else { p with x := x1 }

/-- Scoring for one slot (lines 444-450), applied after movement: if the slot
is unscored and its right edge x + PIPE_WIDTH is left of BIRD_X_POS = 60,
increment score, set the flag, and raise highScore when exceeded. -/
def scoreStep (p : Pipe) (sc hs : ℤ) : Pipe × ℤ × ℤ :=
  if p.scored = false ∧ p.x + 40 < 60 then
    ({ p with scored := true }, sc + 1, if sc + 1 > hs then sc + 1 else hs)
  else (p, sc, hs)

/-- Horizontal overlap of the bird span [60, 80] with a pipe span
[x, x + 40] (line 471): BIRD_X_POS + BIRD_WIDTH > x and BIRD_X_POS < x + 40. -/
def pipeOverlap (p : Pipe) : Prop := 80 > p.x ∧ 60 < p.x + 40

instance (p : Pipe) : Decidable (pipeOverlap p) := by
  unfold pipeOverlap; infer_instance

/-- Gap miss (line 473): bird top above the gap or bird bottom below it,
with half gap PIPE_GAP_HEIGHT / 2 = 40. -/
def gapMiss (p : Pipe) (yb : ℚ) : Prop :=
  yb < (p.gap_y : ℚ) - 40 ∨ yb + 20 > (p.gap_y : ℚ) + 40

instance (p : Pipe) (yb : ℚ) : Decidable (gapMiss p yb) := by
  unfold gapMiss; infer_instance

/-- checkCollisions (lines 461-479): vertical bounds first (top above 0 or
bottom below SCREEN_HEIGHT - GROUND_HEIGHT = 160), then each pipe in turn;
any hit sets gameState to GAME_OVER. -/
def checkCollisions (s : State) : State :=
  if s.bird_y < 0 ∨ s.bird_y + 20 > 160 then { s with gameState := .GAME_OVER }
  else if (pipeOverlap s.pipe0 ∧ gapMiss s.pipe0 s.bird_y) ∨
          (pipeOverlap s.pipe1 ∧ gapMiss s.pipe1 s.bird_y) then
    { s with gameState := .GAME_OVER }
  else s

/-- updateGameLogic (lines 419-455): press-edge flap, gravity integration,
per-slot pipe movement and scoring in slot order (score and highScore
threaded through), then collision detection.  GRAVITY = 0.3 is the exact
rational 3/10, FLAP_VELOCITY = -5. -/
def updateGameLogic (r : Rand) (inp : Input) (s : State) : State :=
  let v0 : ℚ := if inp.pressed && !s.button_was_pressed then -5 else s.bird_y_velocity
  let v1 := v0 + 3/10
  let y1 := s.bird_y + v1
  let p0 := movePipe r.g0 s.pipe0
  let t0 := scoreStep p0 s.score s.highScore
  let p1 := movePipe r.g1 s.pipe1
  let t1 := scoreStep p1 t0.2.1 t0.2.2
  checkCollisions
    { s with
      bird_y := y1
      bird_y_velocity := v1
      button_was_pressed := inp.pressed
      pipe0 := t0.1
      pipe1 := t1.1
      score := t1.2.1
      highScore := t1.2.2 }

/-- One iteration of loop() (lines 364-395), drawing omitted.  The
START_SCREEN branch only switches state; the GAME_OVER branch calls
setupGame before re-entering PLAYING. -/
def tick (r : Rand) (inp : Input) (s : State) : State :=
  match s.gameState with
  | .START_SCREEN =>
      if inp.pressed then { s with gameState := .PLAYING } else s
  | .PLAYING => updateGameLogic r inp s
  | .GAME_OVER =>
      if inp.pressed then { setupGame r s with gameState := .PLAYING } else s

/-- The state right after setup() (lines 342-359): globals at their
compile-time values (gameState = START_SCREEN, highScore = 0,
button_was_pressed = false), then setupGame. -/
def boot (r : Rand) : State :=
  setupGame r
    { gameState := .START_SCREEN, bird_y := 0, bird_y_velocity := 0, score := 0,
      highScore := 0, button_was_pressed := false,
      pipe0 := ⟨0, 0, false⟩, pipe1 := ⟨0, 0, false⟩ }

/-- Iterated ticks, consuming one oracle/input pair per tick. -/
def run : List (Rand × Input) → State → State
  | [], s => s
  | p :: l, s => run l (tick p.1 p.2 s)

/-- Negation of gapMiss: the bird vertical span [bird_y, bird_y + 20] lies
fully inside the gap band [gap_y - 40, gap_y + 40] of a pipe. -/
def inGap (p : Pipe) (yb : ℚ) : Prop :=
  (p.gap_y : ℚ) - 40 ≤ yb ∧ yb + 20 ≤ (p.gap_y : ℚ) + 40

instance (p : Pipe) (yb : ℚ) : Decidable (inGap p yb) := by
  unfold inGap; infer_instance

/-- A pipe slot passes the scoring test of lines 444-450 this tick: after
movement it is unscored and its right edge is left of the bird. -/
def newlyScored (g : ℤ) (p : Pipe) : Prop :=
  (movePipe g p).scored = false ∧ (movePipe g p).x + 40 < 60

instance (g : ℤ) (p : Pipe) : Decidable (newlyScored g p) := by
  unfold newlyScored; infer_instance

/-- Both gap centers lie in the band [60, 100] claimed by the specification
(the code draws from [60, 99]). -/
def GapsOK (s : State) : Prop :=
  (60 ≤ s.pipe0.gap_y ∧ s.pipe0.gap_y ≤ 100) ∧
  (60 ≤ s.pipe1.gap_y ∧ s.pipe1.gap_y ≤ 100)

/-- Inductive phase invariant of the two-slot pipe ring: both x positions are
even, and the slots are either 180 apart (slot 1 ahead) or 182 apart
(slot 0 ahead, right after a slot-0 recycle), with the trailing slot inside
[-40, 320].  It implies the slots stay at least 180 apart, so the bird can
overlap at most one pipe at a time. -/
def SepInv (s : State) : Prop :=
  s.pipe0.x % 2 = 0 ∧ s.pipe1.x % 2 = 0 ∧
  ((s.pipe1.x - s.pipe0.x = 180 ∧ -40 ≤ s.pipe0.x ∧ s.pipe0.x ≤ 320) ∨
   (s.pipe0.x - s.pipe1.x = 182 ∧ -40 ≤ s.pipe1.x ∧ s.pipe1.x ≤ 138))

/-- States reachable by the obstacle-runner process: the state right after
setup(), closed under ticks, where every consumed random draw respects the
range contract of random(60, 100). -/
inductive Reach : State → Prop
  | init (r : Rand) (hr : r.Valid) : Reach (Flappy.boot r)
  | next (r : Rand) (inp : Input) (s : State) (hr : r.Valid) (hs : Reach s) :
      Reach (tick r inp s)

end Flappy

/-- Fixed oracle for the concrete obstacle-runner executions (gap draws 60). -/
def flapRand : Flappy.Rand := ⟨60, 60⟩

/-- A tick with the left switch activated. -/
def pressInp : Input := ⟨true, false⟩

/-- A tick with both switches released. -/
def idleInp : Input := ⟨false, false⟩

/-- Input script for the stale-press-edge execution: the start-screen press,
then alternating press/release ticks; the bird flaps up through the top
bound and dies on a tick whose input is pressed. -/
def c10inputs : List (Flappy.Rand × Input) :=
  (flapRand, pressInp) ::
    (List.replicate 9 [(flapRand, pressInp), (flapRand, idleInp)]).flatten ++
    [(flapRand, pressInp)]

/-! ## Helper lemmas -/

namespace Pong

lemma update_gameState (r : Rand) (inp : Input) (s : State) :
    (updateGameLogic r inp s).gameState = s.gameState := by
  simp only [updateGameLogic, scoringStep, physicsStep, serveBall]
  split_ifs <;> rfl

lemma update_player_x (r : Rand) (inp : Input) (s : State) :
    (updateGameLogic r inp s).player_x = newPlayerX inp s := by
  simp only [updateGameLogic, scoringStep, physicsStep, serveBall]
  split_ifs <;> rfl

lemma update_ai_x (r : Rand) (inp : Input) (s : State) :
    (updateGameLogic r inp s).ai_x = newAIX s := by
  simp only [updateGameLogic, scoringStep, physicsStep, serveBall]
  split_ifs <;> rfl

lemma newPlayerX_bounds (inp : Input) (s : State) :
    0 ≤ newPlayerX inp s ∧ newPlayerX inp s ≤ 240 := by
  simp only [newPlayerX]
  split_ifs <;> constructor <;> linarith

lemma newAIX_bounds (s : State) :
    0 ≤ newAIX s ∧ newAIX s ≤ 240 := by
  simp only [newAIX]
  split_ifs <;> constructor <;> linarith

lemma scoringStep_top (r : Rand) (t : State) (h : t.ball_y > 170) :
    scoringStep r t = serveBall r (-1) { t with aiScore := t.aiScore + 1 } := by
  simp only [scoringStep, if_pos h]
  norm_num [serveBall]

lemma scoringStep_bot (r : Rand) (t : State) (h1 : ¬ t.ball_y > 170) (h2 : t.ball_y < 0) :
    scoringStep r t = serveBall r 1 { t with playerScore := t.playerScore + 1 } := by
  simp only [scoringStep, if_neg h1, if_pos h2]

lemma scoringStep_none (r : Rand) (t : State) (h1 : ¬ t.ball_y > 170) (h2 : ¬ t.ball_y < 0) :
    scoringStep r t = t := by
  simp only [scoringStep, if_neg h1, if_neg h2]

lemma update_top (r : Rand) (inp : Input) (s : State) (h : newBallY s > 170) :
    updateGameLogic r inp s =
      serveBall r (-1) { physicsStep inp s with aiScore := s.aiScore + 1 } := by
  unfold updateGameLogic
  exact scoringStep_top r (physicsStep inp s) h

lemma update_bot (r : Rand) (inp : Input) (s : State) (h1 : ¬ newBallY s > 170)
    (h2 : newBallY s < 0) :
    updateGameLogic r inp s =
      serveBall r 1 { physicsStep inp s with playerScore := s.playerScore + 1 } := by
  unfold updateGameLogic
  exact scoringStep_bot r (physicsStep inp s) h1 h2

lemma update_none (r : Rand) (inp : Input) (s : State) (h1 : ¬ newBallY s > 170)
    (h2 : ¬ newBallY s < 0) :
    updateGameLogic r inp s = physicsStep inp s := by
  unfold updateGameLogic
  exact scoringStep_none r (physicsStep inp s) h1 h2

lemma serve_vx_bounds (r : Rand) (hr : r.Valid) (d : ℤ) (t : State) :
    2 ≤ |(serveBall r d t).ball_vx| ∧ |(serveBall r d t).ball_vx| ≤ 3 := by
  have hvx : (serveBall r d t).ball_vx = r.speed * (if r.sgn then 1 else -1) := rfl
  rw [hvx]
  rcases hr with h | h <;> cases r.sgn <;> rw [h] <;> norm_num

end Pong

/-! ## Claim theorems -/

/-- C5: in the paddle-ball variant, after any engine update both paddle
positions lie in [0, SCREEN_WIDTH - PADDLE_WIDTH] = [0, 240], for every
prior state, every input combination, and hence for inputs held for any
duration. -/
theorem c5_paddle_bounds (r : Pong.Rand) (inp : Input) (s : Pong.State) :
    0 ≤ (Pong.updateGameLogic r inp s).player_x ∧
    (Pong.updateGameLogic r inp s).player_x ≤ 240 ∧
    0 ≤ (Pong.updateGameLogic r inp s).ai_x ∧
    (Pong.updateGameLogic r inp s).ai_x ≤ 240 := by
  rw [Pong.update_player_x, Pong.update_ai_x]
  obtain ⟨h1, h2⟩ := Pong.newPlayerX_bounds inp s
  obtain ⟨h3, h4⟩ := Pong.newAIX_bounds s
  exact ⟨h1, h2, h3, h4⟩

/-- C3: in the paddle-ball variant a PLAYING tick ends in GAME_OVER exactly
when, after the engine update, playerScore is at least 5 or aiScore is at
least 5; otherwise the state stays PLAYING. -/
theorem c3_game_over_iff_threshold (r : Pong.Rand) (inp : Input) (s : Pong.State)
    (hs : s.gameState = .PLAYING) :
    ((Pong.tick r inp s).gameState = .GAME_OVER ↔
      (5 ≤ (Pong.updateGameLogic r inp s).playerScore ∨
       5 ≤ (Pong.updateGameLogic r inp s).aiScore)) ∧
    (¬ (5 ≤ (Pong.updateGameLogic r inp s).playerScore ∨
        5 ≤ (Pong.updateGameLogic r inp s).aiScore) →
      (Pong.tick r inp s).gameState = .PLAYING) := by
  have hug := Pong.update_gameState r inp s
  unfold Pong.tick
  rw [hs]
  dsimp only
  constructor
  · split_ifs with h
    · simp only [ge_iff_le] at h
      exact iff_of_true rfl h
    · simp only [ge_iff_le] at h
      rw [hug, hs]
      exact iff_of_false (by decide) h
  · intro h
    split_ifs with h2
    · exact absurd (by simpa [ge_iff_le] using h2) h
    · rw [hug, hs]

/-- Witness for C3: a concrete PLAYING state with the player at match point
scoring the fifth point this tick, ending the game. -/
theorem c3_game_over_iff_threshold_witness :
    (Pong.tick ⟨2, true, true⟩ idleInp
        ⟨.PLAYING, 120, 120, 10, -1, 0, -3, 4, 0⟩).gameState = .GAME_OVER := by
  have h := c3_game_over_iff_threshold ⟨2, true, true⟩ idleInp
    ⟨.PLAYING, 120, 120, 10, -1, 0, -3, 4, 0⟩ rfl
  rw [h.1]
  left
  norm_num [Pong.updateGameLogic, Pong.scoringStep, Pong.physicsStep, Pong.serveBall,
    Pong.newBallY, Pong.newBallX, Pong.vyAfterAI, Pong.vyAfterPlayer, Pong.aiHit,
    Pong.playerHit, Pong.newPlayerX, Pong.newAIX, Pong.vxAfterPlayer, Pong.vxAfterWall,
    Pong.wallCross, idleInp]

/-- C6: in the paddle-ball variant at most one scoring event fires per tick
and never both scores increment; ball y past the bottom edge (y > 170 after
integration) gives the AI the point and re-serves toward the AI
(vy = -3), past the top edge (y < 0) gives the player the point and
re-serves toward the player (vy = 3); a serve recenters the ball to
(160, 85) with horizontal speed magnitude in [2, 3]. -/
theorem c6_scoring_exclusive_serve (r : Pong.Rand) (inp : Input) (s : Pong.State)
    (hr : r.Valid) :
    ¬ ((Pong.updateGameLogic r inp s).playerScore = s.playerScore + 1 ∧
       (Pong.updateGameLogic r inp s).aiScore = s.aiScore + 1) ∧
    (Pong.newBallY s > 170 →
      (Pong.updateGameLogic r inp s).aiScore = s.aiScore + 1 ∧
      (Pong.updateGameLogic r inp s).playerScore = s.playerScore ∧
      (Pong.updateGameLogic r inp s).ball_x = 160 ∧
      (Pong.updateGameLogic r inp s).ball_y = 85 ∧
      (Pong.updateGameLogic r inp s).ball_vy = -3 ∧
      2 ≤ |(Pong.updateGameLogic r inp s).ball_vx| ∧
      |(Pong.updateGameLogic r inp s).ball_vx| ≤ 3) ∧
    (Pong.newBallY s < 0 →
      (Pong.updateGameLogic r inp s).playerScore = s.playerScore + 1 ∧
      (Pong.updateGameLogic r inp s).aiScore = s.aiScore ∧
      (Pong.updateGameLogic r inp s).ball_x = 160 ∧
      (Pong.updateGameLogic r inp s).ball_y = 85 ∧
      (Pong.updateGameLogic r inp s).ball_vy = 3 ∧
      2 ≤ |(Pong.updateGameLogic r inp s).ball_vx| ∧
      |(Pong.updateGameLogic r inp s).ball_vx| ≤ 3) ∧
    (¬ Pong.newBallY s > 170 → ¬ Pong.newBallY s < 0 →
      (Pong.updateGameLogic r inp s).playerScore = s.playerScore ∧
      (Pong.updateGameLogic r inp s).aiScore = s.aiScore) := by
  by_cases h1 : Pong.newBallY s > 170
  · rw [Pong.update_top r inp s h1]
    obtain ⟨hv1, hv2⟩ := Pong.serve_vx_bounds r hr (-1)
      { Pong.physicsStep inp s with aiScore := s.aiScore + 1 }
    refine ⟨?_, ?_, ?_, ?_⟩
    · rintro ⟨hp, -⟩
      have : s.playerScore = s.playerScore + 1 := hp
      omega
    · intro _
      refine ⟨rfl, rfl, rfl, rfl, ?_, hv1, hv2⟩
      show (3 : ℚ) * ((-1 : ℤ) : ℚ) = -3
      norm_num
    · intro h2
      exact absurd (by linarith : ¬ Pong.newBallY s < 0) (not_not_intro h2)
    · intro h1c
      exact absurd h1 h1c
  · by_cases h2 : Pong.newBallY s < 0
    · rw [Pong.update_bot r inp s h1 h2]
      obtain ⟨hv1, hv2⟩ := Pong.serve_vx_bounds r hr 1
        { Pong.physicsStep inp s with playerScore := s.playerScore + 1 }
      refine ⟨?_, ?_, ?_, ?_⟩
      · rintro ⟨-, ha⟩
        have : s.aiScore = s.aiScore + 1 := ha
        omega
      · intro h1c
        exact absurd h1c h1
      · intro _
        refine ⟨rfl, rfl, rfl, rfl, ?_, hv1, hv2⟩
        show (3 : ℚ) * ((1 : ℤ) : ℚ) = 3
        norm_num
      · intro _ h2c
        exact absurd h2 h2c
    · rw [Pong.update_none r inp s h1 h2]
      refine ⟨?_, ?_, ?_, ?_⟩
      · rintro ⟨hp, -⟩
        have : s.playerScore = s.playerScore + 1 := hp
        omega
      · intro h1c
        exact absurd h1c h1
      · intro h2c
        exact absurd h2c h2
      · intro _ _
        exact ⟨rfl, rfl⟩

/-- Witness for C6: a ball leaving past the bottom edge gives the AI the
point and re-serves toward the AI from the screen center. -/
theorem c6_scoring_exclusive_serve_witness :
    (Pong.updateGameLogic ⟨2, true, true⟩ idleInp
        ⟨.PLAYING, 120, 120, 10, 169, 1, 3, 0, 0⟩).aiScore = 0 + 1 ∧
    (Pong.updateGameLogic ⟨2, true, true⟩ idleInp
        ⟨.PLAYING, 120, 120, 10, 169, 1, 3, 0, 0⟩).playerScore = 0 ∧
    (Pong.updateGameLogic ⟨2, true, true⟩ idleInp
        ⟨.PLAYING, 120, 120, 10, 169, 1, 3, 0, 0⟩).ball_x = 160 ∧
    (Pong.updateGameLogic ⟨2, true, true⟩ idleInp
        ⟨.PLAYING, 120, 120, 10, 169, 1, 3, 0, 0⟩).ball_y = 85 ∧
    (Pong.updateGameLogic ⟨2, true, true⟩ idleInp
        ⟨.PLAYING, 120, 120, 10, 169, 1, 3, 0, 0⟩).ball_vy = -3 ∧
    2 ≤ |(Pong.updateGameLogic ⟨2, true, true⟩ idleInp
        ⟨.PLAYING, 120, 120, 10, 169, 1, 3, 0, 0⟩).ball_vx| ∧
    |(Pong.updateGameLogic ⟨2, true, true⟩ idleInp
        ⟨.PLAYING, 120, 120, 10, 169, 1, 3, 0, 0⟩).ball_vx| ≤ 3 := by
  exact (c6_scoring_exclusive_serve ⟨2, true, true⟩ idleInp
    ⟨.PLAYING, 120, 120, 10, 169, 1, 3, 0, 0⟩ (Or.inl rfl)).2.1
    (by norm_num [Pong.newBallY])

/-- C2 counterexample: on a scoring tick the serve rewrites the vertical
velocity, so its sign can flip with no paddle contact at all.  Here the ball
crosses the bottom edge (y 169 + vy 3 = 172 > 170), neither paddle guard
holds, yet vy goes from 3 to -3. -/
theorem c2_counterexample :
    ¬ Pong.playerHit idleInp ⟨.PLAYING, 200, 0, 10, 169, 1, 3, 0, 0⟩ ∧
    ¬ Pong.aiHit idleInp ⟨.PLAYING, 200, 0, 10, 169, 1, 3, 0, 0⟩ ∧
    (⟨.PLAYING, 200, 0, 10, 169, 1, 3, 0, 0⟩ : Pong.State).ball_vy > 0 ∧
    (Pong.updateGameLogic ⟨2, true, true⟩ idleInp
        ⟨.PLAYING, 200, 0, 10, 169, 1, 3, 0, 0⟩).ball_vy < 0 := by
  refine ⟨?_, ?_, by norm_num, ?_⟩
  · norm_num [Pong.playerHit, Pong.newBallX, Pong.newBallY, Pong.newPlayerX, idleInp]
  · norm_num [Pong.aiHit, Pong.vyAfterPlayer, Pong.playerHit, Pong.newBallX,
      Pong.newBallY, Pong.newPlayerX, Pong.newAIX, idleInp]
  · norm_num [Pong.updateGameLogic, Pong.scoringStep, Pong.physicsStep, Pong.serveBall,
      Pong.newBallY, Pong.newBallX, Pong.vyAfterAI, Pong.vyAfterPlayer, Pong.aiHit,
      Pong.playerHit, Pong.newPlayerX, Pong.newAIX, Pong.vxAfterPlayer,
      Pong.vxAfterWall, Pong.wallCross, idleInp]

/-- C2 amended: on a tick with no scoring event (the integrated ball y stays
inside [0, 170]), the vertical velocity is unchanged unless a paddle guard
fires, and absent player-paddle contact the horizontal velocity is negated
iff the integrated ball x leaves [0, 310], otherwise unchanged. -/
theorem c2_velocity_sign_amended (r : Pong.Rand) (inp : Input) (s : Pong.State)
    (h1 : ¬ Pong.newBallY s > 170) (h2 : ¬ Pong.newBallY s < 0) :
    (¬ Pong.playerHit inp s → ¬ Pong.aiHit inp s →
      (Pong.updateGameLogic r inp s).ball_vy = s.ball_vy) ∧
    (¬ Pong.playerHit inp s →
      (Pong.updateGameLogic r inp s).ball_vx =
        (if Pong.wallCross s then -s.ball_vx else s.ball_vx)) := by
  rw [Pong.update_none r inp s h1 h2]
  constructor
  · intro hp ha
    show Pong.vyAfterAI inp s = s.ball_vy
    rw [Pong.vyAfterAI, if_neg ha, Pong.vyAfterPlayer, if_neg hp]
  · intro hp
    show Pong.vxAfterPlayer inp s = _
    rw [Pong.vxAfterPlayer, if_neg hp, Pong.vxAfterWall]

/-- Witness for the amended C2: a quiet mid-screen tick leaves both velocity
components unchanged. -/
theorem c2_velocity_sign_amended_witness :
    (Pong.updateGameLogic ⟨2, true, true⟩ idleInp
        ⟨.PLAYING, 120, 120, 100, 80, 1, 3, 0, 0⟩).ball_vy =
      (⟨.PLAYING, 120, 120, 100, 80, 1, 3, 0, 0⟩ : Pong.State).ball_vy ∧
    (Pong.updateGameLogic ⟨2, true, true⟩ idleInp
        ⟨.PLAYING, 120, 120, 100, 80, 1, 3, 0, 0⟩).ball_vx =
      (if Pong.wallCross ⟨.PLAYING, 120, 120, 100, 80, 1, 3, 0, 0⟩
        then -(⟨.PLAYING, 120, 120, 100, 80, 1, 3, 0, 0⟩ : Pong.State).ball_vx
        else (⟨.PLAYING, 120, 120, 100, 80, 1, 3, 0, 0⟩ : Pong.State).ball_vx) := by
  have h := c2_velocity_sign_amended ⟨2, true, true⟩ idleInp
    ⟨.PLAYING, 120, 120, 100, 80, 1, 3, 0, 0⟩
    (by norm_num [Pong.newBallY]) (by norm_num [Pong.newBallY])
  exact ⟨h.1
    (by norm_num [Pong.playerHit, Pong.newBallX, Pong.newBallY, Pong.newPlayerX, idleInp])
    (by norm_num [Pong.aiHit, Pong.vyAfterPlayer, Pong.playerHit, Pong.newBallX,
      Pong.newBallY, Pong.newPlayerX, Pong.newAIX, idleInp]),
    h.2
    (by norm_num [Pong.playerHit, Pong.newBallX, Pong.newBallY, Pong.newPlayerX, idleInp])⟩

namespace Flappy

lemma tick_start_idle (r : Rand) (inp : Input) (s : State)
    (hs : s.gameState = .START_SCREEN) (hp : inp.pressed = false) :
    tick r inp s = s := by
  unfold tick
  rw [hs]
  dsimp only
  rw [if_neg (by simp [hp])]

lemma run_idle : ∀ (l : List (Rand × Input)) (s : State),
    s.gameState = .START_SCREEN → (∀ p ∈ l, p.2.pressed = false) → run l s = s
  | [], _, _, _ => rfl
  | p :: t, s, hs, hl => by
      rw [run, tick_start_idle p.1 p.2 s hs (hl p (List.mem_cons_self p t))]
      exact run_idle t s hs (fun q hq => hl q (List.mem_cons_of_mem p hq))

end Flappy

/-- C1: in both variants the Start to Playing transition fires when either
input is active, and the first Playing tick starts from fully reset
entity state: in the paddle-ball variant the transition itself calls
resetGame (scores zero, paddles centered, ball served from screen center
with vy of magnitude 3); in the obstacle runner the start screen preserves
the state set up by setup() untouched (score zero, bird recentered at rest,
pipes spawned at x = 320 and x = 500 with cleared scored flags), so the
state entering PLAYING is the freshly reset one. -/
theorem c1_start_transition :
    (∀ (r : Pong.Rand) (inp : Input) (s : Pong.State),
      s.gameState = .START_SCREEN → inp.pressed = true →
      (Pong.tick r inp s).gameState = .PLAYING ∧
      (Pong.tick r inp s).playerScore = 0 ∧
      (Pong.tick r inp s).aiScore = 0 ∧
      (Pong.tick r inp s).player_x = 120 ∧
      (Pong.tick r inp s).ai_x = 120 ∧
      (Pong.tick r inp s).ball_x = 160 ∧
      (Pong.tick r inp s).ball_y = 85 ∧
      ((Pong.tick r inp s).ball_vy = 3 ∨ (Pong.tick r inp s).ball_vy = -3)) ∧
    (∀ (r0 r : Flappy.Rand) (inp : Input) (l : List (Flappy.Rand × Input)),
      (∀ p ∈ l, p.2.pressed = false) → inp.pressed = true →
      (Flappy.tick r inp (Flappy.run l (Flappy.boot r0))).gameState = .PLAYING ∧
      (Flappy.tick r inp (Flappy.run l (Flappy.boot r0))).score = 0 ∧
      (Flappy.tick r inp (Flappy.run l (Flappy.boot r0))).bird_y = 85 ∧
      (Flappy.tick r inp (Flappy.run l (Flappy.boot r0))).bird_y_velocity = 0 ∧
      (Flappy.tick r inp (Flappy.run l (Flappy.boot r0))).pipe0.x = 320 ∧
      (Flappy.tick r inp (Flappy.run l (Flappy.boot r0))).pipe1.x = 500 ∧
      (Flappy.tick r inp (Flappy.run l (Flappy.boot r0))).pipe0.scored = false ∧
      (Flappy.tick r inp (Flappy.run l (Flappy.boot r0))).pipe1.scored = false) := by
  constructor
  · intro r inp s hs hp
    have ht : Pong.tick r inp s = { Pong.resetGame r s with gameState := .PLAYING } := by
      unfold Pong.tick
      rw [hs]
      dsimp only
      rw [if_pos hp]
    rw [ht]
    refine ⟨rfl, rfl, rfl, rfl, rfl, rfl, rfl, ?_⟩
    cases hd : r.dir
    · right
      simp only [Pong.resetGame, Pong.serveBall, hd]
      norm_num
    · left
      simp only [Pong.resetGame, Pong.serveBall, hd]
      norm_num
  · intro r0 r inp l hl hp
    have hb : (Flappy.boot r0).gameState = .START_SCREEN := rfl
    rw [Flappy.run_idle l (Flappy.boot r0) hb hl]
    have ht : Flappy.tick r inp (Flappy.boot r0) =
        { Flappy.boot r0 with gameState := .PLAYING } := by
      unfold Flappy.tick
      rw [hb]
      dsimp only
      rw [if_pos hp]
    rw [ht]
    exact ⟨rfl, rfl, rfl, rfl, rfl, rfl, rfl, rfl⟩

/-- Witness for C1: a concrete press on each start screen, with stale scores
in the paddle-ball state to show they are wiped. -/
theorem c1_start_transition_witness :
    ((Pong.tick ⟨2, true, true⟩ pressInp ⟨.START_SCREEN, 7, 9, 1, 2, 3, 4, 7, 7⟩).gameState =
        .PLAYING ∧
      (Pong.tick ⟨2, true, true⟩ pressInp ⟨.START_SCREEN, 7, 9, 1, 2, 3, 4, 7, 7⟩).playerScore = 0 ∧
      (Pong.tick ⟨2, true, true⟩ pressInp ⟨.START_SCREEN, 7, 9, 1, 2, 3, 4, 7, 7⟩).aiScore = 0 ∧
      (Pong.tick ⟨2, true, true⟩ pressInp ⟨.START_SCREEN, 7, 9, 1, 2, 3, 4, 7, 7⟩).player_x = 120 ∧
      (Pong.tick ⟨2, true, true⟩ pressInp ⟨.START_SCREEN, 7, 9, 1, 2, 3, 4, 7, 7⟩).ai_x = 120 ∧
      (Pong.tick ⟨2, true, true⟩ pressInp ⟨.START_SCREEN, 7, 9, 1, 2, 3, 4, 7, 7⟩).ball_x = 160 ∧
      (Pong.tick ⟨2, true, true⟩ pressInp ⟨.START_SCREEN, 7, 9, 1, 2, 3, 4, 7, 7⟩).ball_y = 85 ∧
      ((Pong.tick ⟨2, true, true⟩ pressInp ⟨.START_SCREEN, 7, 9, 1, 2, 3, 4, 7, 7⟩).ball_vy = 3 ∨
       (Pong.tick ⟨2, true, true⟩ pressInp ⟨.START_SCREEN, 7, 9, 1, 2, 3, 4, 7, 7⟩).ball_vy = -3)) ∧
    ((Flappy.tick flapRand pressInp
        (Flappy.run [(flapRand, idleInp)] (Flappy.boot flapRand))).gameState = .PLAYING ∧
      (Flappy.tick flapRand pressInp
        (Flappy.run [(flapRand, idleInp)] (Flappy.boot flapRand))).score = 0 ∧
      (Flappy.tick flapRand pressInp
        (Flappy.run [(flapRand, idleInp)] (Flappy.boot flapRand))).bird_y = 85 ∧
      (Flappy.tick flapRand pressInp
        (Flappy.run [(flapRand, idleInp)] (Flappy.boot flapRand))).bird_y_velocity = 0 ∧
      (Flappy.tick flapRand pressInp
        (Flappy.run [(flapRand, idleInp)] (Flappy.boot flapRand))).pipe0.x = 320 ∧
      (Flappy.tick flapRand pressInp
        (Flappy.run [(flapRand, idleInp)] (Flappy.boot flapRand))).pipe1.x = 500 ∧
      (Flappy.tick flapRand pressInp
        (Flappy.run [(flapRand, idleInp)] (Flappy.boot flapRand))).pipe0.scored = false ∧
      (Flappy.tick flapRand pressInp
        (Flappy.run [(flapRand, idleInp)] (Flappy.boot flapRand))).pipe1.scored = false) := by
  constructor
  · exact c1_start_transition.1 ⟨2, true, true⟩ pressInp
      ⟨.START_SCREEN, 7, 9, 1, 2, 3, 4, 7, 7⟩ rfl rfl
  · exact c1_start_transition.2 flapRand flapRand pressInp [(flapRand, idleInp)]
      (by intro p hp; simp only [List.mem_singleton] at hp; rw [hp]; rfl) rfl

namespace Flappy

lemma checkCollisions_pipe0 (s : State) : (checkCollisions s).pipe0 = s.pipe0 := by
  unfold checkCollisions
  split_ifs <;> rfl

lemma checkCollisions_pipe1 (s : State) : (checkCollisions s).pipe1 = s.pipe1 := by
  unfold checkCollisions
  split_ifs <;> rfl

lemma checkCollisions_score (s : State) : (checkCollisions s).score = s.score := by
  unfold checkCollisions
  split_ifs <;> rfl

lemma checkCollisions_highScore (s : State) : (checkCollisions s).highScore = s.highScore := by
  unfold checkCollisions
  split_ifs <;> rfl

lemma scoreStep_x (p : Pipe) (sc hs : ℤ) : (scoreStep p sc hs).1.x = p.x := by
  unfold scoreStep
  split_ifs <;> rfl

lemma scoreStep_gap (p : Pipe) (sc hs : ℤ) : (scoreStep p sc hs).1.gap_y = p.gap_y := by
  unfold scoreStep
  split_ifs <;> rfl

lemma scoreStep_hs_mono (p : Pipe) (sc hs : ℤ) : hs ≤ (scoreStep p sc hs).2.2 := by
  unfold scoreStep
  split_ifs <;> simp <;> omega

lemma update_parts (r : Rand) (inp : Input) (s : State) :
    (updateGameLogic r inp s).pipe0 =
      (scoreStep (movePipe r.g0 s.pipe0) s.score s.highScore).1 ∧
    (updateGameLogic r inp s).pipe1 =
      (scoreStep (movePipe r.g1 s.pipe1)
        (scoreStep (movePipe r.g0 s.pipe0) s.score s.highScore).2.1
        (scoreStep (movePipe r.g0 s.pipe0) s.score s.highScore).2.2).1 ∧
    (updateGameLogic r inp s).score =
      (scoreStep (movePipe r.g1 s.pipe1)
        (scoreStep (movePipe r.g0 s.pipe0) s.score s.highScore).2.1
        (scoreStep (movePipe r.g0 s.pipe0) s.score s.highScore).2.2).2.1 ∧
    (updateGameLogic r inp s).highScore =
      (scoreStep (movePipe r.g1 s.pipe1)
        (scoreStep (movePipe r.g0 s.pipe0) s.score s.highScore).2.1
        (scoreStep (movePipe r.g0 s.pipe0) s.score s.highScore).2.2).2.2 := by
  refine ⟨?_, ?_, ?_, ?_⟩ <;>
    simp only [updateGameLogic, checkCollisions_pipe0, checkCollisions_pipe1,
      checkCollisions_score, checkCollisions_highScore]

lemma movePipe_x (g : ℤ) (p : Pipe) :
    (movePipe g p).x = if p.x - 2 < -40 then 320 else p.x - 2 := by
  simp only [movePipe]
  split_ifs <;> rfl

lemma movePipe_gap (g : ℤ) (p : Pipe) :
    (movePipe g p).gap_y = if p.x - 2 < -40 then g else p.gap_y := by
  simp only [movePipe]
  split_ifs <;> rfl

lemma movePipe_scored (g : ℤ) (p : Pipe) :
    (movePipe g p).scored = if p.x - 2 < -40 then false else p.scored := by
  simp only [movePipe]
  split_ifs <;> rfl

end Flappy

namespace Flappy

lemma gapsOK_setupGame (r : Rand) (s : State) (hr : r.Valid) : GapsOK (setupGame r s) := by
  obtain ⟨⟨h1, h2⟩, h3, h4⟩ := hr
  exact ⟨⟨h1, show r.g0 ≤ 100 by omega⟩, h3, show r.g1 ≤ 100 by omega⟩

lemma gapsOK_update (r : Rand) (inp : Input) (s : State) (hr : r.Valid) (h : GapsOK s) :
    GapsOK (updateGameLogic r inp s) := by
  obtain ⟨e0, e1, -, -⟩ := update_parts r inp s
  obtain ⟨⟨h1, h2⟩, h3, h4⟩ := h
  obtain ⟨⟨g1, g2⟩, g3, g4⟩ := hr
  unfold GapsOK
  rw [e0, e1, scoreStep_gap, scoreStep_gap, movePipe_gap, movePipe_gap]
  split_ifs <;> omega

lemma gapsOK_tick (r : Rand) (inp : Input) (s : State) (hr : r.Valid) (h : GapsOK s) :
    GapsOK (tick r inp s) := by
  obtain ⟨gs, y, v, sc, hsc, bp, p0, p1⟩ := s
  cases gs
  case START_SCREEN =>
    dsimp only [tick]
    split_ifs <;> exact h
  case PLAYING =>
    exact gapsOK_update r inp ⟨.PLAYING, y, v, sc, hsc, bp, p0, p1⟩ hr h
  case GAME_OVER =>
    dsimp only [tick]
    split_ifs
    · exact gapsOK_setupGame r ⟨.GAME_OVER, y, v, sc, hsc, bp, p0, p1⟩ hr
    · exact h

lemma sepInv_setupGame (r : Rand) (s : State) : SepInv (setupGame r s) := by
  exact ⟨show (320 : ℤ) % 2 = 0 by decide, show (500 : ℤ) % 2 = 0 by decide,
    Or.inl ⟨show (500 : ℤ) - 320 = 180 by decide, show (-40 : ℤ) ≤ 320 by decide,
      show (320 : ℤ) ≤ 320 by decide⟩⟩

lemma sepInv_update (r : Rand) (inp : Input) (s : State) (h : SepInv s) :
    SepInv (updateGameLogic r inp s) := by
  obtain ⟨e0, e1, -, -⟩ := update_parts r inp s
  obtain ⟨he0, he1, hd⟩ := h
  unfold SepInv
  rw [e0, e1, scoreStep_x, scoreStep_x, movePipe_x, movePipe_x]
  split_ifs <;> omega

lemma sepInv_tick (r : Rand) (inp : Input) (s : State) (h : SepInv s) :
    SepInv (tick r inp s) := by
  obtain ⟨gs, y, v, sc, hsc, bp, p0, p1⟩ := s
  cases gs
  case START_SCREEN =>
    dsimp only [tick]
    split_ifs <;> exact h
  case PLAYING =>
    exact sepInv_update r inp ⟨.PLAYING, y, v, sc, hsc, bp, p0, p1⟩ h
  case GAME_OVER =>
    dsimp only [tick]
    split_ifs
    · exact sepInv_setupGame r ⟨.GAME_OVER, y, v, sc, hsc, bp, p0, p1⟩
    · exact h

lemma reach_gapsOK (s : State) (h : Reach s) : GapsOK s := by
  induction h with
  | init r hr => exact gapsOK_setupGame r _ hr
  | next r inp s hr hs ih => exact gapsOK_tick r inp s hr ih

lemma reach_sepInv (s : State) (h : Reach s) : SepInv s := by
  induction h with
  | init r hr => exact sepInv_setupGame r _
  | next r inp s hr hs ih => exact sepInv_tick r inp s ih

lemma sepInv_not_both_overlap (s : State) (h : SepInv s) :
    ¬ (pipeOverlap s.pipe0 ∧ pipeOverlap s.pipe1) := by
  obtain ⟨-, -, hd⟩ := h
  rintro ⟨⟨ha1, ha2⟩, hb1, hb2⟩
  omega

end Flappy

/-- C4: the obstacle-runner collision check sets GAME_OVER from PLAYING iff
the bird leaves the vertical band [0, 160] or some pipe overlaps the bird
horizontally while the bird is not fully inside its gap; moreover in every
program state (every reachable state satisfies the separation invariant,
third part) a bird fully inside the gap band of a horizontally overlapping
pipe and inside the vertical bounds survives the check. -/
theorem c4_collision_characterization :
    (∀ s : Flappy.State, s.gameState = .PLAYING →
      ((Flappy.checkCollisions s).gameState = .GAME_OVER ↔
        (s.bird_y < 0 ∨ s.bird_y + 20 > 160 ∨
         (Flappy.pipeOverlap s.pipe0 ∧ Flappy.gapMiss s.pipe0 s.bird_y) ∨
         (Flappy.pipeOverlap s.pipe1 ∧ Flappy.gapMiss s.pipe1 s.bird_y)))) ∧
    (∀ s : Flappy.State, s.gameState = .PLAYING → Flappy.SepInv s →
      ¬ (s.bird_y < 0 ∨ s.bird_y + 20 > 160) →
      ((Flappy.pipeOverlap s.pipe0 ∧ Flappy.inGap s.pipe0 s.bird_y) ∨
       (Flappy.pipeOverlap s.pipe1 ∧ Flappy.inGap s.pipe1 s.bird_y)) →
      (Flappy.checkCollisions s).gameState = .PLAYING) ∧
    (∀ s : Flappy.State, Flappy.Reach s → Flappy.SepInv s) := by
  refine ⟨?_, ?_, Flappy.reach_sepInv⟩
  · intro s hs
    unfold Flappy.checkCollisions
    split_ifs with hv hp
    · exact iff_of_true rfl (by tauto)
    · exact iff_of_true rfl (by tauto)
    · rw [hs]
      push_neg at hv
      refine iff_of_false (by decide) ?_
      push_neg at hp
      rintro (h1 | h2 | h3 | h4)
      · exact absurd h1 (not_lt.mpr hv.1)
      · exact absurd h2 (not_lt.mpr hv.2)
      · exact absurd h3 (by tauto)
      · exact absurd h4 (by tauto)
  · intro s hs hsep hv hin
    unfold Flappy.checkCollisions
    rw [if_neg (by tauto), if_neg ?_]
    · exact hs
    · have hboth := Flappy.sepInv_not_both_overlap s hsep
      rcases hin with ⟨ho0, hg0, hg0b⟩ | ⟨ho1, hg1, hg1b⟩
      · rintro (⟨-, hm⟩ | ⟨ho1, -⟩)
        · unfold Flappy.gapMiss at hm
          rcases hm with hm | hm <;> linarith
        · exact hboth ⟨ho0, ho1⟩
      · rintro (⟨ho0, -⟩ | ⟨-, hm⟩)
        · exact hboth ⟨ho0, ho1⟩
        · unfold Flappy.gapMiss at hm
          rcases hm with hm | hm <;> linarith

/-- Witness for C4: a bird out of vertical bounds dies; a bird centered in
the gap of the pipe it overlaps survives; the boot state is reachable and
separated. -/
theorem c4_collision_characterization_witness :
    (Flappy.checkCollisions
        ⟨.PLAYING, 200, 0, 0, 0, false, ⟨100, 60, false⟩, ⟨280, 60, false⟩⟩).gameState =
      .GAME_OVER ∧
    (Flappy.checkCollisions
        ⟨.PLAYING, 60, 0, 0, 0, false, ⟨78, 85, false⟩, ⟨258, 85, false⟩⟩).gameState =
      .PLAYING ∧
    Flappy.SepInv (Flappy.boot flapRand) := by
  refine ⟨?_, ?_, ?_⟩
  · exact (c4_collision_characterization.1
      ⟨.PLAYING, 200, 0, 0, 0, false, ⟨100, 60, false⟩, ⟨280, 60, false⟩⟩ rfl).mpr
      (Or.inr (Or.inl (by norm_num)))
  · exact c4_collision_characterization.2.1
      ⟨.PLAYING, 60, 0, 0, 0, false, ⟨78, 85, false⟩, ⟨258, 85, false⟩⟩ rfl
      ⟨by decide, by decide, Or.inl ⟨by decide, by decide, by decide⟩⟩
      (by norm_num)
      (Or.inl ⟨⟨by decide, by decide⟩, by norm_num [Flappy.inGap]⟩)
  · exact c4_collision_characterization.2.2 (Flappy.boot flapRand)
      (Flappy.Reach.init flapRand (by decide))

/-- C8: in every reachable obstacle-runner state both gap centers lie in the
band [60, 100], so each gap sits fully inside the playable vertical strip
above the ground. -/
theorem c8_gap_in_band (s : Flappy.State) (h : Flappy.Reach s) :
    (60 ≤ s.pipe0.gap_y ∧ s.pipe0.gap_y ≤ 100) ∧
    (60 ≤ s.pipe1.gap_y ∧ s.pipe1.gap_y ≤ 100) :=
  Flappy.reach_gapsOK s h

/-- Witness for C8: the boot state with gap draws 60 is reachable and its
gaps are inside the band. -/
theorem c8_gap_in_band_witness :
    (60 ≤ (Flappy.boot flapRand).pipe0.gap_y ∧ (Flappy.boot flapRand).pipe0.gap_y ≤ 100) ∧
    (60 ≤ (Flappy.boot flapRand).pipe1.gap_y ∧ (Flappy.boot flapRand).pipe1.gap_y ≤ 100) :=
  c8_gap_in_band (Flappy.boot flapRand) (Flappy.Reach.init flapRand (by decide))

namespace Flappy

lemma scoreStep_score (p : Pipe) (sc hs : ℤ) :
    (scoreStep p sc hs).2.1 = sc + (if p.scored = false ∧ p.x + 40 < 60 then 1 else 0) := by
  unfold scoreStep
  split_ifs <;> simp

lemma scoreStep_hs (p : Pipe) (sc hs : ℤ) :
    (scoreStep p sc hs).2.2 =
      if p.scored = false ∧ p.x + 40 < 60 then (if sc + 1 > hs then sc + 1 else hs)
      else hs := by
  unfold scoreStep
  split_ifs <;> rfl

lemma scored_after_recycle (g : ℤ) (p : Pipe) (sc hs : ℤ) (h : p.x - 2 < -40) :
    (scoreStep (movePipe g p) sc hs).1.scored = false := by
  simp only [movePipe]
  rw [if_pos h]
  unfold scoreStep
  norm_num

lemma scored_after_no_recycle (g : ℤ) (p : Pipe) (sc hs : ℤ) (h : ¬ p.x - 2 < -40) :
    ((scoreStep (movePipe g p) sc hs).1.scored = true ↔
      (p.scored = true ∨ p.x - 2 + 40 < 60)) := by
  simp only [movePipe]
  rw [if_neg h]
  cases hb : p.scored
  · by_cases hx : p.x - 2 + 40 < 60
    · unfold scoreStep
      rw [if_pos ⟨rfl, hx⟩]
      simp [hx]
    · unfold scoreStep
      rw [if_neg (fun hc => hx hc.2)]
      simp [hx]
  · unfold scoreStep
    rw [if_neg (fun hc => by simp at hc)]
    simp

lemma score_chain (r : Rand) (inp : Input) (s : State) :
    (updateGameLogic r inp s).score = s.score +
      (if newlyScored r.g0 s.pipe0 then 1 else 0) +
      (if newlyScored r.g1 s.pipe1 then 1 else 0) := by
  obtain ⟨-, -, esc, -⟩ := update_parts r inp s
  rw [esc, scoreStep_score, scoreStep_score]
  simp only [newlyScored]

lemma tick_highScore_mono (r : Rand) (inp : Input) (s : State) :
    s.highScore ≤ (tick r inp s).highScore := by
  obtain ⟨gs, y, v, sc, hsc, bp, p0, p1⟩ := s
  cases gs
  case START_SCREEN =>
    dsimp only [tick]
    split_ifs <;> exact le_refl _
  case PLAYING =>
    obtain ⟨-, -, -, eh⟩ := update_parts r inp ⟨.PLAYING, y, v, sc, hsc, bp, p0, p1⟩
    dsimp only [tick]
    rw [eh]
    exact le_trans (scoreStep_hs_mono _ sc hsc) (scoreStep_hs_mono _ _ _)
  case GAME_OVER =>
    dsimp only [tick]
    split_ifs <;> exact le_refl _

lemma run_highScore_mono : ∀ (l : List (Rand × Input)) (s : State),
    s.highScore ≤ (run l s).highScore
  | [], _ => le_refl _
  | p :: t, s => le_trans (tick_highScore_mono p.1 p.2 s) (run_highScore_mono t _)

lemma update_highScore_max (r : Rand) (inp : Input) (s : State)
    (h : s.score < (updateGameLogic r inp s).score) :
    (updateGameLogic r inp s).highScore =
      max s.highScore (updateGameLogic r inp s).score := by
  obtain ⟨-, -, esc, eh⟩ := update_parts r inp s
  rw [esc] at h ⊢
  rw [eh]
  simp only [scoreStep_score, scoreStep_hs] at h ⊢
  split_ifs at h ⊢ <;> omega

end Flappy

/-- C7: in the obstacle runner each tick, a recycled slot leaves the tick
with its scored flag clear; a non-recycled slot ends the tick with the flag
set iff it was already set or its moved right edge has passed the bird
position 60 (so the flag goes false to true at most once between recycles);
and the score grows by exactly the number of slots newly scoring this tick. -/
theorem c7_scored_flag_lifecycle (r : Flappy.Rand) (inp : Input) (s : Flappy.State) :
    (s.pipe0.x - 2 < -40 → (Flappy.updateGameLogic r inp s).pipe0.scored = false) ∧
    (s.pipe1.x - 2 < -40 → (Flappy.updateGameLogic r inp s).pipe1.scored = false) ∧
    (¬ s.pipe0.x - 2 < -40 →
      ((Flappy.updateGameLogic r inp s).pipe0.scored = true ↔
        (s.pipe0.scored = true ∨ s.pipe0.x - 2 + 40 < 60))) ∧
    (¬ s.pipe1.x - 2 < -40 →
      ((Flappy.updateGameLogic r inp s).pipe1.scored = true ↔
        (s.pipe1.scored = true ∨ s.pipe1.x - 2 + 40 < 60))) ∧
    ((Flappy.updateGameLogic r inp s).score = s.score +
      (if Flappy.newlyScored r.g0 s.pipe0 then 1 else 0) +
      (if Flappy.newlyScored r.g1 s.pipe1 then 1 else 0)) := by
  obtain ⟨e0, e1, -, -⟩ := Flappy.update_parts r inp s
  refine ⟨?_, ?_, ?_, ?_, Flappy.score_chain r inp s⟩
  · intro h
    rw [e0]
    exact Flappy.scored_after_recycle r.g0 s.pipe0 _ _ h
  · intro h
    rw [e1]
    exact Flappy.scored_after_recycle r.g1 s.pipe1 _ _ h
  · intro h
    rw [e0]
    exact Flappy.scored_after_no_recycle r.g0 s.pipe0 _ _ h
  · intro h
    rw [e1]
    exact Flappy.scored_after_no_recycle r.g1 s.pipe1 _ _ h

/-- Witness for C7: slot 0 recycles this tick (flag comes out clear), slot 1
passes the bird unscored (flag comes out set) and the score grows by one. -/
theorem c7_scored_flag_lifecycle_witness :
    (Flappy.updateGameLogic flapRand idleInp
      ⟨.PLAYING, 60, 0, 5, 5, false, ⟨-40, 60, false⟩, ⟨20, 60, false⟩⟩).pipe0.scored = false ∧
    ((Flappy.updateGameLogic flapRand idleInp
      ⟨.PLAYING, 60, 0, 5, 5, false, ⟨-40, 60, false⟩, ⟨20, 60, false⟩⟩).pipe1.scored = true ↔
      (false = true ∨ (20 : ℤ) - 2 + 40 < 60)) ∧
    (Flappy.updateGameLogic flapRand idleInp
      ⟨.PLAYING, 60, 0, 5, 5, false, ⟨-40, 60, false⟩, ⟨20, 60, false⟩⟩).score = 5 +
      (if Flappy.newlyScored flapRand.g0 (⟨-40, 60, false⟩ : Flappy.Pipe) then 1 else 0) +
      (if Flappy.newlyScored flapRand.g1 (⟨20, 60, false⟩ : Flappy.Pipe) then 1 else 0) := by
  have h := c7_scored_flag_lifecycle flapRand idleInp
    ⟨.PLAYING, 60, 0, 5, 5, false, ⟨-40, 60, false⟩, ⟨20, 60, false⟩⟩
  exact ⟨h.1 (by decide), h.2.2.2.1 (by decide), h.2.2.2.2⟩

/-- C9: the obstacle-runner high score never decreases: along any input
script, under the per-game reset, and across every single tick; and whenever
a tick increases the score, the high score becomes max(old high score, new
score). -/
theorem c9_highscore_monotone :
    (∀ (l : List (Flappy.Rand × Input)) (s : Flappy.State),
      s.highScore ≤ (Flappy.run l s).highScore) ∧
    (∀ (r : Flappy.Rand) (s : Flappy.State),
      (Flappy.setupGame r s).highScore = s.highScore) ∧
    (∀ (r : Flappy.Rand) (inp : Input) (s : Flappy.State),
      s.highScore ≤ (Flappy.tick r inp s).highScore) ∧
    (∀ (r : Flappy.Rand) (inp : Input) (s : Flappy.State),
      s.score < (Flappy.updateGameLogic r inp s).score →
      (Flappy.updateGameLogic r inp s).highScore =
        max s.highScore (Flappy.updateGameLogic r inp s).score) :=
  ⟨Flappy.run_highScore_mono, fun _ _ => rfl, Flappy.tick_highScore_mono,
   Flappy.update_highScore_max⟩

/-- Witness for C9: a tick on which slot 0 scores the fourth point pushes the
high score from 1 up to max(1, 4) = 4. -/
theorem c9_highscore_monotone_witness :
    (Flappy.updateGameLogic flapRand idleInp
      ⟨.PLAYING, 60, 0, 3, 1, false, ⟨20, 60, false⟩, ⟨200, 60, false⟩⟩).highScore =
      max 1 ((Flappy.updateGameLogic flapRand idleInp
        ⟨.PLAYING, 60, 0, 3, 1, false, ⟨20, 60, false⟩, ⟨200, 60, false⟩⟩).score) := by
  refine c9_highscore_monotone.2.2.2 flapRand idleInp
    ⟨.PLAYING, 60, 0, 3, 1, false, ⟨20, 60, false⟩, ⟨200, 60, false⟩⟩ ?_
  have := Flappy.score_chain flapRand idleInp
    ⟨.PLAYING, 60, 0, 3, 1, false, ⟨20, 60, false⟩, ⟨200, 60, false⟩⟩
  rw [this]
  norm_num [Flappy.newlyScored, Flappy.movePipe]

/-- C10: setupGame leaves the press-edge state button_was_pressed untouched,
and in a concrete execution from boot in which the button is held on the
final update tick of a game (the bird flies through the top bound and dies
on a pressed tick), the restart press re-enters PLAYING with the stale flag
still set, so the press sampled on the first Playing tick of the new game
yields no flap: the velocity becomes gravity 3/10, not the flap value -5. -/
theorem c10_stale_press_edge :
    (∀ (r : Flappy.Rand) (s : Flappy.State),
      (Flappy.setupGame r s).button_was_pressed = s.button_was_pressed) ∧
    c10inputs.getLast? = some (flapRand, pressInp) ∧
    pressInp.pressed = true ∧
    (Flappy.run c10inputs (Flappy.boot flapRand)).gameState = .GAME_OVER ∧
    (Flappy.run c10inputs (Flappy.boot flapRand)).button_was_pressed = true ∧
    (Flappy.tick flapRand pressInp
      (Flappy.run c10inputs (Flappy.boot flapRand))).gameState = .PLAYING ∧
    (Flappy.tick flapRand pressInp
      (Flappy.tick flapRand pressInp
        (Flappy.run c10inputs (Flappy.boot flapRand)))).bird_y_velocity = 3 / 10 ∧
    (3 : ℚ) / 10 ≠ -5 := by
  have hdead : Flappy.run c10inputs (Flappy.boot flapRand) =
      ⟨.GAME_OVER, -8/5, -47/10, 0, 0, true, ⟨282, 60, false⟩, ⟨462, 60, false⟩⟩ := by
    norm_num [c10inputs, flapRand, pressInp, idleInp, Flappy.run, Flappy.tick,
      Flappy.boot, Flappy.setupGame, Flappy.updateGameLogic, Flappy.movePipe,
      Flappy.scoreStep, Flappy.checkCollisions, Flappy.pipeOverlap, Flappy.gapMiss,
      Input.pressed, List.replicate, List.flatten]
  have hrestart : Flappy.tick flapRand pressInp
      (⟨.GAME_OVER, -8/5, -47/10, 0, 0, true, ⟨282, 60, false⟩, ⟨462, 60, false⟩⟩ :
        Flappy.State) =
      ⟨.PLAYING, 85, 0, 0, 0, true, ⟨320, 60, false⟩, ⟨500, 60, false⟩⟩ := by
    norm_num [Flappy.tick, Flappy.setupGame, pressInp, Input.pressed, flapRand]
  have hplay : Flappy.tick flapRand pressInp
      (⟨.PLAYING, 85, 0, 0, 0, true, ⟨320, 60, false⟩, ⟨500, 60, false⟩⟩ :
        Flappy.State) =
      ⟨.PLAYING, 853/10, 3/10, 0, 0, true, ⟨318, 60, false⟩, ⟨498, 60, false⟩⟩ := by
    norm_num [Flappy.tick, Flappy.updateGameLogic, Flappy.movePipe, Flappy.scoreStep,
      Flappy.checkCollisions, Flappy.pipeOverlap, Flappy.gapMiss, pressInp,
      Input.pressed, flapRand]
  refine ⟨fun r s => rfl, by decide, rfl, ?_, ?_, ?_, ?_, by norm_num⟩
  · rw [hdead]
  · rw [hdead]
  · rw [hdead, hrestart]
  · rw [hdead, hrestart, hplay]
